import Mathlib

set_option linter.unusedVariables false

/-!
Verification development for the core of a configuration-driven developer CLI
(dev-cli). The components embedded here, translated from the JavaScript
source:

* the three Executor backends (`DockerExecutor`, `NativeExecutor`,
  `SSHExecutor`) from `src/execution/` — subprocess invocation is modelled by
  an `ExecOutcome` value standing for the one `execa` call a method performs,
  and a raised JavaScript error is an `Except.error`;
* the `ProviderRegistry` from `src/core/provider-registry.js` — JS `Map`s
  become association lists with `Map.set` update semantics, provider classes
  become tags, and provider instances carry an allocation id so object
  identity is expressible;
* the `Context` from `src/core/context.js` with its memoized executor and
  per-type provider cache;
* the database provider's `listSnapshots`/`rollback`
  (`src/providers/database/`), with the directory listing supplied as data;
* the command loader's validation predicates (`src/core/command-loader.js`);
* the `/etc/hosts` provider (`src/providers/hosts/etc-hosts-provider.js`),
  with the hosts file represented as its list of lines;
* the plugin manager's `runHook` and the registered action wrapper
  (`src/core/plugin-manager.js`, `src/core/command-loader.js`).

JavaScript truthiness on optional strings (`undefined`/`''` are falsy) is
modelled by `jsOrStr`/`strTruthy`; `x || default` on optional numbers by
`jsOrInt`.
-/

deriving instance DecidableEq for Except

/-- JS `s || default` for an optional string: `undefined`/`null` and the empty
string are falsy. -/
def jsOrStr : Option String → String → String
  | some s, d => if s = "" then d else s
  | none, d => d

/-- JS `n || default` for an optional number: `undefined`/`null` and `0` are
falsy. -/
def jsOrInt : Option Int → Int → Int
  | some n, d => if n = 0 then d else n
  | none, d => d

/-- JS truthiness of an optional string value. -/
def strTruthy : Option String → Bool
  | some s => !(s == "")
  | none => false

/-- Association-list lookup, modelling JS `Map.get` / object property access. -/
def getAssoc {α : Type} (k : String) : List (String × α) → Option α
  | [] => none
  | (k2, v) :: rest => if k2 = k then some v else getAssoc k rest

/-- Association-list update, modelling JS `Map.set`: replace the value in
place when the key exists, append otherwise. -/
def setAssoc {α : Type} (k : String) (v : α) : List (String × α) → List (String × α)
  | [] => [(k, v)]
  | (k2, v2) :: rest => if k2 = k then (k, v) :: rest else (k2, v2) :: setAssoc k v rest

/-- JS `Array.prototype.join(sep)`. -/
def joinSep (sep : String) : List String → String
  | [] => ""
  | [x] => x
  | x :: y :: rest => x ++ sep ++ joinSep sep (y :: rest)

theorem getAssoc_setAssoc {α : Type} (k : String) (v : α) (l : List (String × α)) :
    getAssoc k (setAssoc k v l) = some v := by
  induction l with
  | nil => simp [setAssoc, getAssoc]
  | cons hd tl ih =>
    obtain ⟨k2, v2⟩ := hd
    by_cases hk : k2 = k
    · simp [setAssoc, getAssoc, hk]
    · simp [setAssoc, getAssoc, hk, ih]

/-! ## Executors (src/execution/) -/

/-- The resolved value of an `execa` call: `{stdout, stderr, exitCode}` with
each field possibly absent. -/
structure ExecaResult where
  stdout : Option String
  stderr : Option String
  exitCode : Option Int
deriving DecidableEq

/-- The rejection value of an `execa` call: the thrown error object, which
carries captured output fields and a message. -/
structure ExecaError where
  stdout : Option String
  stderr : Option String
  exitCode : Option Int
  message : String
deriving DecidableEq

/-- The outcome of the single subprocess invocation a method performs. -/
inductive ExecOutcome where
  | resolved (r : ExecaResult)
  | rejected (e : ExecaError)
deriving DecidableEq

/-- The uniform `{stdout, stderr, exitCode}` record the executors return. -/
structure CmdResult where
  stdout : String
  stderr : String
  exitCode : Int
deriving DecidableEq

/-- A raised JavaScript error: either a `new Error(message)` thrown by the
executor itself, or an `execa` rejection propagated uncaught. -/
inductive JsError where
  | raised (message : String)
  | execaRejection (e : ExecaError)
deriving DecidableEq

/-- The shared try/catch capture pattern of `run` in all three executors:
`{stdout: result.stdout || '', stderr: result.stderr || '', exitCode:
result.exitCode || 0}` on resolution and `{stdout: error.stdout || '',
stderr: error.stderr || error.message, exitCode: error.exitCode || 1}` on
rejection. -/
def captureOutcome : ExecOutcome → CmdResult
  | .resolved r => ⟨jsOrStr r.stdout "", jsOrStr r.stderr "", jsOrInt r.exitCode 0⟩
  | .rejected e => ⟨jsOrStr e.stdout "", jsOrStr e.stderr e.message, jsOrInt e.exitCode 1⟩

namespace NativeExecutor

/-- `NativeExecutor.run`: wraps `execa` in try/catch, never raises. -/
def run (o : ExecOutcome) : Except JsError CmdResult :=
  .ok (captureOutcome o)

/-- `NativeExecutor.runInService`: delegates to `run`, the service name is
only stored for debugging. -/
def runInService (service : String) (o : ExecOutcome) : Except JsError CmdResult :=
  run o

/-- `NativeExecutor.start`: no-op, `Promise.resolve()`. -/
def start (services : List String) : Except JsError Unit :=
  .ok ()

/-- `NativeExecutor.stop`: no-op. -/
def stop (services : List String) : Except JsError Unit :=
  .ok ()

/-- `NativeExecutor.restart`: no-op. -/
def restart (services : List String) : Except JsError Unit :=
  .ok ()

/-- `NativeExecutor.status`: returns a single synthetic record describing the
local platform (its environment-derived fields are abstracted to the `type`
and `status` labels the code hardcodes). -/
def status (services : List String) : Except JsError (List (String × String)) :=
  .ok [("native", "running")]

/-- `NativeExecutor.logs`: prints two informational lines and resolves. -/
def logs (services : List String) : Except JsError Unit :=
  .ok ()

end NativeExecutor

namespace SSHExecutor

/-- `SSHExecutor.run`: throws when no host is configured (`if (!this.host)`),
otherwise captures the subprocess outcome in try/catch. -/
def run (host : Option String) (o : ExecOutcome) : Except JsError CmdResult :=
  if !(strTruthy host) then .error (.raised "SSH host is not configured")
  else .ok (captureOutcome o)

/-- `SSHExecutor.runInService`: delegates to `run`. -/
def runInService (host : Option String) (service : String) (o : ExecOutcome) :
    Except JsError CmdResult :=
  run host o

/-- `SSHExecutor.start`: runs `docker compose up -d [services]` on the remote
through `run`. -/
def start (host : Option String) (services : List String) (o : ExecOutcome) :
    Except JsError CmdResult :=
  run host o

/-- `SSHExecutor.stop`: runs `docker compose stop services` or
`docker compose down` on the remote through `run`. -/
def stop (host : Option String) (services : List String) (o : ExecOutcome) :
    Except JsError CmdResult :=
  run host o

/-- `SSHExecutor.restart`: runs `docker compose restart [services]` through
`run`. -/
def restart (host : Option String) (services : List String) (o : ExecOutcome) :
    Except JsError CmdResult :=
  run host o

/-- `SSHExecutor.logs`: runs `docker compose logs ...` through `run` with
`interactive: true`. -/
def logs (host : Option String) (services : List String) (o : ExecOutcome) :
    Except JsError CmdResult :=
  run host o

/-- `SSHExecutor.status`: try/catch around `run`; on success splits stdout
into nonempty lines (the per-line JSON parse is presentation), on any failure
returns `[]`. -/
def status (host : Option String) (services : List String) (o : ExecOutcome) :
    List String :=
  match run host o with
  | .ok r => (r.stdout.split (· = '\n')).filter (fun l => !(l == ""))
  | .error _ => []

end SSHExecutor

namespace DockerExecutor

/-- The subset of `execa` options the Docker executor inspects. -/
structure RunOptions where
  interactive : Bool
  hasStdin : Bool
  hasStdout : Bool
  hasStderr : Bool
  hasInput : Bool
  stdio : Option String
deriving DecidableEq

/-- An options object with no fields set. -/
def noOptions : RunOptions :=
  ⟨false, false, false, false, false, none⟩

/-- `'stdin' in options || 'stdout' in options || 'stderr' in options ||
'input' in options || 'stdio' in options`. -/
def hasCustomIO (o : RunOptions) : Bool :=
  o.hasStdin || o.hasStdout || o.hasStderr || o.hasInput || o.stdio.isSome

/-- `DockerExecutor.resolveService`: container-name lookup in the configured
mapping, `null` when unmapped. -/
def resolveService (containers : List (String × String)) (service : String) :
    Option String :=
  getAssoc service containers

/-- `DockerExecutor.run`: executes directly (not in a container), try/catch
capture, never raises. -/
def run (o : ExecOutcome) : Except JsError CmdResult :=
  .ok (captureOutcome o)

/-- `DockerExecutor.runInService`: throws a configuration error for an
unmapped service, throws `Docker is not running` when the daemon probe fails,
otherwise captures the `docker exec` outcome; on rejection with
`options.stdio === 'inherit'` the output fields are blanked because the error
already reached the user's terminal. -/
def runInService (containers : List (String × String)) (service : String)
    (dockerAvailable : Bool) (opts : RunOptions) (o : ExecOutcome) :
    Except JsError CmdResult :=
  match resolveService containers service with
  | none =>
    .error (.raised ("Service \"" ++ service ++ "\" is not configured in containers mapping"))
  | some _ =>
    if !dockerAvailable then .error (.raised "Docker is not running")
    else
      match o with
      | .resolved r =>
        .ok ⟨jsOrStr r.stdout "", jsOrStr r.stderr "", jsOrInt r.exitCode 0⟩
      | .rejected e =>
        if opts.stdio == some "inherit" then .ok ⟨"", "", jsOrInt e.exitCode 1⟩
        else .ok ⟨jsOrStr e.stdout "", jsOrStr e.stderr e.message, jsOrInt e.exitCode 1⟩

/-- `DockerExecutor.compose`: throws when Docker is not running or no compose
file is found; otherwise returns the `execa` promise directly, so a
subprocess rejection propagates to the caller uncaught. -/
def compose (dockerAvailable : Bool) (composeFile : Option String)
    (projectRoot : String) (args : List String) (o : ExecOutcome) :
    Except JsError ExecaResult :=
  if !dockerAvailable then .error (.raised "Docker is not running")
  else
    match composeFile with
    | none => .error (.raised ("No Docker Compose file found in " ++ projectRoot))
    | some _ =>
      match o with
      | .resolved r => .ok r
      | .rejected e => .error (.execaRejection e)

/-- `DockerExecutor.start`: `docker compose up -d [--build] [services]` via
`compose`. -/
def start (dockerAvailable : Bool) (composeFile : Option String)
    (projectRoot : String) (services : List String) (build : Bool)
    (o : ExecOutcome) : Except JsError ExecaResult :=
  compose dockerAvailable composeFile projectRoot
    ((["up", "-d"] ++ (if build then ["--build"] else [])) ++ services) o

/-- `DockerExecutor.stop`: `docker compose stop services` when services are
named, `docker compose down` otherwise, via `compose`. -/
def stop (dockerAvailable : Bool) (composeFile : Option String)
    (projectRoot : String) (services : List String) (o : ExecOutcome) :
    Except JsError ExecaResult :=
  if !services.isEmpty then
    compose dockerAvailable composeFile projectRoot ("stop" :: services) o
  else
    compose dockerAvailable composeFile projectRoot ["down"] o

/-- `DockerExecutor.restart`: `docker compose restart [services]` via
`compose`. -/
def restart (dockerAvailable : Bool) (composeFile : Option String)
    (projectRoot : String) (services : List String) (o : ExecOutcome) :
    Except JsError ExecaResult :=
  compose dockerAvailable composeFile projectRoot ("restart" :: services) o

/-- `DockerExecutor.logs`: `docker compose logs [-f] [--tail n] [services]`
via `compose` with inherited stdio. -/
def logs (dockerAvailable : Bool) (composeFile : Option String)
    (projectRoot : String) (services : List String) (follow : Bool)
    (tail : Option Nat) (o : ExecOutcome) : Except JsError ExecaResult :=
  compose dockerAvailable composeFile projectRoot
    ((["logs"] ++ (if follow then ["-f"] else [])
      ++ (match tail with | some n => ["--tail", toString n] | none => []))
     ++ services) o

/-- `DockerExecutor.status`: try/catch around `compose ps --format json`;
on success splits stdout into nonempty lines (per-line JSON parse is
presentation), on any failure returns `[]`. -/
def status (dockerAvailable : Bool) (composeFile : Option String)
    (projectRoot : String) (services : List String) (o : ExecOutcome) :
    List String :=
  match compose dockerAvailable composeFile projectRoot
      (["ps", "--format", "json"] ++ services) o with
  | .ok r =>
    ((jsOrStr r.stdout "").split (· = '\n')).filter (fun l => !(l == ""))
  | .error _ => []

end DockerExecutor

/-! ## Provider registry (src/core/provider-registry.js) -/

/-- A per-type configuration section (`config[type]`): the driver selection
plus a `rest` field abstracting every other configuration datum the section
carries (credentials, paths, ...). -/
structure TypeConfig where
  driver : Option String
  rest : Nat
deriving DecidableEq

/-- The full CLI configuration as the registry sees it: a record whose
per-type sections are looked up by name. -/
def Config : Type := List (String × TypeConfig)

/-- The provider classes registered by `registerDatabaseProviders`,
`registerStorageProviders` and `registerHostsProviders`. -/
inductive ProviderClass where
  | mysqlP
  | postgresP
  | sqliteP
  | filesystemP
  | s3P
  | etcHostsP
deriving DecidableEq

/-- A constructed provider instance: the allocation id models JS object
identity, and the constructor arguments `(typeConfig, executor)` actually
passed at `new ProviderClass(typeConfig, config, executor)` are recorded. -/
structure PInstance where
  id : Nat
  cls : ProviderClass
  cfg : TypeConfig
  exec : Option Nat
deriving DecidableEq

/-- `ProviderRegistry`: `providers` maps `"type:name"` keys to classes,
`instances` caches constructed instances by the same key, and `nextId` is the
allocator for instance identities. -/
structure ProviderRegistry where
  providers : List (String × ProviderClass)
  instances : List (String × PInstance)
  nextId : Nat
deriving DecidableEq

namespace ProviderRegistry

/-- A fresh registry (`new ProviderRegistry()`). -/
def empty : ProviderRegistry :=
  ⟨[], [], 0⟩

/-- `register(type, name, providerClass)`. -/
def register (ty nm : String) (cls : ProviderClass) (r : ProviderRegistry) :
    ProviderRegistry :=
  { r with providers := setAssoc (ty ++ ":" ++ nm) cls r.providers }

/-- `get(type, name)`: the registered class or `null`. -/
def get (ty nm : String) (r : ProviderRegistry) : Option ProviderClass :=
  getAssoc (ty ++ ":" ++ nm) r.providers

/-- `listProviders(type)`: the driver names of all keys with the `"type:"`
prefix, in registration order. -/
def listProviders (ty : String) (r : ProviderRegistry) : List String :=
  let pre := ty ++ ":"
  r.providers.filterMap (fun kv =>
    if pre.data.isPrefixOf kv.1.data then some (String.mk (kv.1.data.drop pre.data.length))
    else none)

/-- The message of the error `resolve` throws for an unregistered driver:
`` `Provider "${driver}" not found for type "${type}". Available providers:
${this.listProviders(type).join(', ') || 'none'}` ``. -/
def notFoundMessage (ty d : String) (r : ProviderRegistry) : String :=
  "Provider \"" ++ d ++ "\" not found for type \"" ++ ty ++ "\". Available providers: "
    ++ (if joinSep ", " (listProviders ty r) = "" then "none"
        else joinSep ", " (listProviders ty r))

/-- `resolve(type, config, executor)`: `null` for a missing section or an
unset/`'none'` driver; the cached instance when one exists for
`"type:driver"`; otherwise instantiates the registered class (recording the
section config and executor it was built with), caches it, and returns it —
or throws `notFoundMessage` when no class is registered. -/
def resolve (ty : String) (cfg : Config) (ex : Option Nat) (r : ProviderRegistry) :
    Except String (Option PInstance) × ProviderRegistry :=
  match getAssoc ty cfg with
  | none => (.ok none, r)
  | some tc =>
    match tc.driver with
    | none => (.ok none, r)
    | some d =>
      if d = "" ∨ d = "none" then (.ok none, r)
      else
        match getAssoc (ty ++ ":" ++ d) r.instances with
        | some inst => (.ok (some inst), r)
        | none =>
          match getAssoc (ty ++ ":" ++ d) r.providers with
          | none => (.error (notFoundMessage ty d r), r)
          | some cls =>
            (.ok (some ⟨r.nextId, cls, tc, ex⟩),
             { r with
                instances := setAssoc (ty ++ ":" ++ d) ⟨r.nextId, cls, tc, ex⟩ r.instances,
                nextId := r.nextId + 1 })

/-- `clearInstances()`: drops every cached instance, keeps registrations. -/
def clearInstances (r : ProviderRegistry) : ProviderRegistry :=
  { r with instances := [] }

end ProviderRegistry

/-- `registerDatabaseProviders`: mysql, postgres, postgresql (alias), sqlite. -/
def registerDatabaseProviders (r : ProviderRegistry) : ProviderRegistry :=
  (((r.register "database" "mysql" .mysqlP).register "database" "postgres" .postgresP
    ).register "database" "postgresql" .postgresP).register "database" "sqlite" .sqliteP

/-- `registerStorageProviders`: filesystem, s3, minio (alias for s3). -/
def registerStorageProviders (r : ProviderRegistry) : ProviderRegistry :=
  ((r.register "storage" "filesystem" .filesystemP).register "storage" "s3" .s3P
    ).register "storage" "minio" .s3P

/-- `registerHostsProviders`: etc-hosts. -/
def registerHostsProviders (r : ProviderRegistry) : ProviderRegistry :=
  r.register "hosts" "etc-hosts" .etcHostsP

/-! ## Context (src/core/context.js) -/

/-- The slice of the full configuration the Context dereferences:
`execution.mode`, and the `database`/`storage`/`hosts` sections. -/
structure FullConfig where
  executionMode : Option String
  database : Option TypeConfig
  storage : Option TypeConfig
  hosts : Option TypeConfig
deriving DecidableEq

/-- A constructed executor instance (id models JS object identity). -/
structure ExecInst where
  id : Nat
  mode : String
deriving DecidableEq

/-- A provider instance constructed directly by the Context's
`create*Provider` factory functions. -/
structure CtxInst where
  id : Nat
  cls : ProviderClass
deriving DecidableEq

/-- `createExecutor(config)` from src/execution/index.js: switch on
`config.execution?.mode || 'docker'`, throwing for an unknown mode. -/
def createExecutor (cfg : FullConfig) (id : Nat) : Except String ExecInst :=
  let mode := jsOrStr cfg.executionMode "docker"
  if mode = "docker" then .ok ⟨id, "docker"⟩
  else if mode = "native" then .ok ⟨id, "native"⟩
  else if mode = "ssh" then .ok ⟨id, "ssh"⟩
  else .error ("Unknown execution mode: \"" ++ mode ++ "\". Supported modes: docker, native, ssh")

/-- `createDatabaseProvider(config, fullConfig, executor)` from
src/providers/database/index.js: `null` for an unset or `'none'` driver, a
new provider for a known driver, a thrown error otherwise. -/
def createDatabaseProvider (tc : Option TypeConfig) (id : Nat) :
    Except String (Option CtxInst) :=
  match tc with
  | none => .ok none
  | some c =>
    match c.driver with
    | none => .ok none
    | some d =>
      if d = "" ∨ d = "none" then .ok none
      else if d = "mysql" then .ok (some ⟨id, .mysqlP⟩)
      else if d = "postgres" ∨ d = "postgresql" then .ok (some ⟨id, .postgresP⟩)
      else if d = "sqlite" then .ok (some ⟨id, .sqliteP⟩)
      else .error ("Unknown database driver: \"" ++ d
        ++ "\". Supported drivers: mysql, postgres, postgresql, sqlite")

/-- `createStorageProvider` from src/providers/storage/index.js. -/
def createStorageProvider (tc : Option TypeConfig) (id : Nat) :
    Except String (Option CtxInst) :=
  match tc with
  | none => .ok none
  | some c =>
    match c.driver with
    | none => .ok none
    | some d =>
      if d = "" ∨ d = "none" then .ok none
      else if d = "filesystem" then .ok (some ⟨id, .filesystemP⟩)
      else if d = "s3" ∨ d = "minio" then .ok (some ⟨id, .s3P⟩)
      else .error ("Unknown storage driver: \"" ++ d
        ++ "\". Supported drivers: filesystem, s3, minio")

/-- `createHostsProvider` from src/providers/hosts/index.js. -/
def createHostsProvider (tc : Option TypeConfig) (id : Nat) :
    Except String (Option CtxInst) :=
  match tc with
  | none => .ok none
  | some c =>
    match c.driver with
    | none => .ok none
    | some d =>
      if d = "" ∨ d = "none" then .ok none
      else if d = "etc-hosts" then .ok (some ⟨id, .etcHostsP⟩)
      else .error ("Unknown hosts driver: \"" ++ d ++ "\". Supported drivers: etc-hosts")

/-- The Context state: configuration, the memoized executor (`_executor`),
the per-type provider cache (`_providers`, in which a cached value may itself
be `null`), the `_providersInitialized` flag, the global registry the
initialization step registers into, and the allocator for instance ids. -/
structure Ctx where
  config : FullConfig
  executor : Option ExecInst
  providers : List (String × Option CtxInst)
  providersInitialized : Bool
  registry : ProviderRegistry
  nextId : Nat
deriving DecidableEq

namespace Ctx

/-- A freshly constructed Context (`new Context(config)`). -/
def create (cfg : FullConfig) : Ctx :=
  ⟨cfg, none, [], false, ProviderRegistry.empty, 0⟩

/-- `Context.getExecutor()`: constructs via `createExecutor` on first call
and memoizes; later calls return the memoized instance. -/
def getExecutor (c : Ctx) : Except String (ExecInst × Ctx) :=
  match c.executor with
  | some e => .ok (e, c)
  | none =>
    match createExecutor c.config c.nextId with
    | .error m => .error m
    | .ok e => .ok (e, { c with executor := some e, nextId := c.nextId + 1 })

/-- `Context.initializeProviders()`: returns immediately when already
initialized, otherwise registers all provider families with the global
registry and sets the flag. -/
def initializeProviders (c : Ctx) : Ctx :=
  if c.providersInitialized then c
  else
    { c with
        registry := registerHostsProviders (registerStorageProviders
          (registerDatabaseProviders c.registry)),
        providersInitialized := true }

/-- `Context.getProvider(type)`: ensures registration, returns the cached
value when the cache key is populated (even when the cached value is `null`),
otherwise obtains the executor, constructs via the type's factory, caches the
result and returns it; an unknown type throws. -/
def getProvider (ty : String) (c0 : Ctx) : Except String (Option CtxInst × Ctx) :=
  let c := initializeProviders c0
  match getAssoc ty c.providers with
  | some v => .ok (v, c)
  | none =>
    match getExecutor c with
    | .error m => .error m
    | .ok (_, c2) =>
      match (if ty = "database" then createDatabaseProvider c2.config.database c2.nextId
             else if ty = "storage" then createStorageProvider c2.config.storage c2.nextId
             else if ty = "hosts" then createHostsProvider c2.config.hosts c2.nextId
             else .error ("Unknown provider type: \"" ++ ty ++ "\"")) with
      | .error m => .error m
      | .ok v =>
        .ok (v, { c2 with
                    providers := setAssoc ty v c2.providers,
                    nextId := if v.isSome then c2.nextId + 1 else c2.nextId })

/-- `Context.getDatabaseProvider()`. -/
def getDatabaseProvider (c : Ctx) : Except String (Option CtxInst × Ctx) :=
  getProvider "database" c

/-- `Context.getStorageProvider()`. -/
def getStorageProvider (c : Ctx) : Except String (Option CtxInst × Ctx) :=
  getProvider "storage" c

/-- `Context.getHostsProvider()`. -/
def getHostsProvider (c : Ctx) : Except String (Option CtxInst × Ctx) :=
  getProvider "hosts" c

end Ctx

/-! ## Database snapshots (src/providers/database/) -/

/-- A directory entry as returned by `fs.readdirSync` + `fs.statSync`:
name, file/directory flag, size, and modification time. -/
structure DirEnt where
  name : String
  isFile : Bool
  size : Nat
  mtime : Int
deriving DecidableEq

/-- The snapshot record `listSnapshots` builds per file:
`{name, path, size, created: stats.mtime}`. -/
structure SnapshotInfo where
  name : String
  path : String
  size : Nat
  created : Int
deriving DecidableEq

namespace BaseDatabaseProvider

/-- Stable insertion for `Array.prototype.sort((a, b) => b.created -
a.created)`: an element moves before the first entry whose key is strictly
smaller, so equal keys keep their original order. -/
def insertByCreatedDesc (x : SnapshotInfo) : List SnapshotInfo → List SnapshotInfo
  | [] => [x]
  | y :: ys =>
    if y.created ≤ x.created then x :: y :: ys else y :: insertByCreatedDesc x ys

/-- The stable descending-by-`created` sort applied by `listSnapshots` and
`listBackups`. -/
def sortByCreatedDesc : List SnapshotInfo → List SnapshotInfo
  | [] => []
  | x :: xs => insertByCreatedDesc x (sortByCreatedDesc xs)

/-- `BaseDatabaseProvider.listSnapshots()`: `[]` when the snapshot directory
does not exist; otherwise the regular files of the directory listing, each
paired with its joined path and mtime, sorted newest-first by mtime. -/
def listSnapshots (snapshotDir : String) (dirExists : Bool) (files : List DirEnt) :
    List SnapshotInfo :=
  if !dirExists then []
  else
    sortByCreatedDesc (files.filterMap (fun f =>
      if f.isFile then some ⟨f.name, snapshotDir ++ "/" ++ f.name, f.size, f.mtime⟩
      else none))

end BaseDatabaseProvider

namespace MySQLProvider

/-- `MySQLProvider.rollback()` (identical in the Postgres and SQLite
providers): throws `'No snapshots available'` when `listSnapshots()` is
empty, otherwise restores from `snapshots[0].path`; the returned value is
the path handed to `restore`. -/
def rollback (snapshotDir : String) (dirExists : Bool) (files : List DirEnt) :
    Except String String :=
  match BaseDatabaseProvider.listSnapshots snapshotDir dirExists files with
  | [] => .error "No snapshots available"
  | latest :: _ => .ok latest.path

end MySQLProvider

/-! ## Command loader validation (src/core/command-loader.js) -/

/-- A command definition as the loader's validation sees it: an optional
name, whether an `action` function is present, and the `subcommands` field
when it is present *and is an array* (the only case in which the JS guard
`cmd.subcommands && Array.isArray(cmd.subcommands)` passes). -/
inductive CommandDef where
  | mk (name : Option String) (action : Bool) (subcommands : Option (List CommandDef))

/-- The `name` field. -/
def CommandDef.name : CommandDef → Option String
  | .mk n _ _ => n

/-- Whether the `action` field is a function. -/
def CommandDef.action : CommandDef → Bool
  | .mk _ a _ => a

/-- The `subcommands` field (when present and an array). -/
def CommandDef.subcommands : CommandDef → Option (List CommandDef)
  | .mk _ _ s => s

/-- `isValidCommand` from `loadCommandModule`: no name → invalid; a
`subcommands` array (of any length, including empty) → valid; otherwise the
truthiness of `action`. -/
def isValidCommand (c : CommandDef) : Bool :=
  if !(strTruthy c.name) then false
  else
    match c.subcommands with
    | some _ => true
    | none => c.action

/-- The per-definition filter of `loadPluginCommands`:
`if (!cmd.name || !cmd.action)` the definition is dropped — plugin commands
must have an action even when they carry subcommands. -/
def pluginCommandValid (c : CommandDef) : Bool :=
  strTruthy c.name && c.action

/-- The array-export path of `loadCommandModule`: keep exactly the valid
definitions, warning on (and dropping) each invalid one. -/
def loadArrayCommands (cmds : List CommandDef) : List CommandDef :=
  cmds.filter isValidCommand

/-- The single-object-export path of `loadCommandModule`. -/
def loadSingleCommand (c : CommandDef) : List CommandDef :=
  if isValidCommand c then [c] else []

/-- The plugin-command filtering of `loadPluginCommands`. -/
def pluginValidCommands (cmds : List CommandDef) : List CommandDef :=
  cmds.filter pluginCommandValid

/-- Modelled from the spec: the spec's validity rule — "a command definition
is valid iff it has a name AND (an action OR at least one subcommand)" —
for comparison against the implementation's `isValidCommand`. -/
def specValidCommand (c : CommandDef) : Bool :=
  strTruthy c.name
    && (c.action
        || (match c.subcommands with
            | some l => !l.isEmpty
            | none => false))

/-! ## /etc/hosts provider (src/providers/hosts/etc-hosts-provider.js)

The hosts file is represented as its list of lines (`content.split('\n')`);
the marker search `content.indexOf(marker)` is modelled as the index of the
first line equal to the marker, which coincides with the string search for
the marker lines this provider itself writes. -/

namespace EtcHostsProvider

/-- Character-level `String.prototype.trim()`. -/
def trimChars (l : List Char) : List Char :=
  ((l.dropWhile Char.isWhitespace).reverse.dropWhile Char.isWhitespace).reverse

/-- `split(sep)` on a character list (JS `String.prototype.split` with a
single-character separator). -/
def splitOnChar (sep : Char) : List Char → List Char → List (List Char)
  | [], acc => [acc.reverse]
  | c :: cs, acc =>
    if c = sep then acc.reverse :: splitOnChar sep cs []
    else splitOnChar sep cs (c :: acc)

/-- `split(/\s+/)` on an already-trimmed character list: whitespace runs
separate tokens, no empty tokens are produced. -/
def splitWsAux : List Char → List Char → List (List Char)
  | [], acc => if acc.isEmpty then [] else [acc.reverse]
  | c :: cs, acc =>
    if c.isWhitespace then
      if acc.isEmpty then splitWsAux cs [] else acc.reverse :: splitWsAux cs []
    else splitWsAux cs (c :: acc)

/-- Tokenize on whitespace. -/
def splitWs (l : List Char) : List (List Char) :=
  splitWsAux l []

/-- `[a-zA-Z0-9]`. -/
def isAlnumChar (c : Char) : Bool :=
  c.isAlpha || c.isDigit

/-- One label of the hostname regex:
`[a-zA-Z0-9]([a-zA-Z0-9-]*[a-zA-Z0-9])?` — nonempty, alphanumeric at both
ends, alphanumeric or hyphen inside. -/
def validLabel (l : List Char) : Bool :=
  match l, l.getLast? with
  | [], _ => false
  | c :: _, some lastc =>
    isAlnumChar c && isAlnumChar lastc && l.all (fun x => isAlnumChar x || x = '-')
  | _ :: _, none => false

/-- `BaseHostsProvider.isValidHostname`: the dot-separated-labels pattern
plus the 253-character bound. -/
def isValidHostname (s : String) : Bool :=
  (splitOnChar '.' s.data []).all validLabel && decide (s.data.length ≤ 253)

/-- `parseInt` on a digit string. -/
def digitsVal (l : List Char) : Nat :=
  l.foldl (fun a c => a * 10 + (c.toNat - '0'.toNat)) 0

/-- A group of the simplified IPv6 regex: 1–4 hex digits. -/
def validHexGroup (g : List Char) : Bool :=
  decide (1 ≤ g.length) && decide (g.length ≤ 4) && g.all (fun c =>
    c.isDigit || ('a' ≤ c && c ≤ 'f') || ('A' ≤ c && c ≤ 'F'))

/-- `BaseHostsProvider.isValidIP`: if the IPv4 shape (four 1–3 digit groups)
matches, every group must parse to ≤ 255; otherwise the simplified IPv6
pattern (eight 1–4 hex-digit groups, or the literal `::1`) decides. -/
def isValidIP (s : String) : Bool :=
  let parts := splitOnChar '.' s.data []
  if decide (parts.length = 4)
      && parts.all (fun p =>
        decide (1 ≤ p.length) && decide (p.length ≤ 3) && p.all Char.isDigit) then
    parts.all (fun p => decide (digitsVal p ≤ 255))
  else
    (s == "::1")
      || (let gs := splitOnChar ':' s.data []
          decide (gs.length = 8) && gs.all validHexGroup)

/-- An `{ip, hostname}` pair parsed from the hosts file. -/
structure HostEntry where
  ip : String
  hostname : String
deriving DecidableEq

/-- The entries one line contributes in `parseHostsFile`: skip blank and
comment lines; a line with at least two whitespace-separated fields yields
one entry per hostname after the leading IP. -/
def lineEntries (line : String) : List HostEntry :=
  let t := trimChars line.data
  if t.isEmpty then []
  else if t.head? == some '#' then []
  else
    match splitWs t with
    | ip :: h1 :: hs => (h1 :: hs).map (fun h => ⟨String.mk ip, String.mk h⟩)
    | _ => []

/-- `EtcHostsProvider.parseHostsFile`. -/
def parseHostsFile (lines : List String) : List HostEntry :=
  (lines.map lineEntries).flatten

/-- `this.startMarker`. -/
def startMarker : String :=
  "# >>> dev-cli managed hosts"

/-- `this.endMarker`. -/
def endMarker : String :=
  "# <<< dev-cli managed hosts"

/-- `EtcHostsProvider.getManagedSection`: `null` unless both markers occur;
otherwise the lines before the start marker, the managed block from the
start marker through the end marker, and the lines after it. -/
def getManagedSection (lines : List String) : Option (List String × List String × List String) :=
  match lines.findIdx? (· == startMarker), lines.findIdx? (· == endMarker) with
  | some i, some j =>
    some (lines.take i, (lines.drop i).take (j + 1 - i), lines.drop (j + 1))
  | _, _ => none

/-- `EtcHostsProvider.buildManagedSection`: start marker, one
`ip\thostname` line per entry, end marker. -/
def buildManagedSection (entries : List String) (ip : String) : List String :=
  (startMarker :: entries.map (fun h => ip ++ "\t" ++ h)) ++ [endMarker]

/-- Order-preserving deduplication, JS `[...new Set(list)]`. -/
def dedupAux : List String → List String → List String
  | [], seen => []
  | x :: xs, seen =>
    if seen.contains x then dedupAux xs seen else x :: dedupAux xs (x :: seen)

/-- JS `[...new Set(list)]`. -/
def dedupList (l : List String) : List String :=
  dedupAux l []

/-- Character-level `String.prototype.trimEnd()` applied to the final line. -/
def rstripLine (s : String) : String :=
  String.mk (s.data.reverse.dropWhile Char.isWhitespace).reverse

/-- `content.trimEnd()` in line representation: drop trailing
whitespace-only lines and right-trim the last remaining line (an all-blank
content trims to the single empty line the empty string splits into). -/
def trimEndLines (ls : List String) : List String :=
  match ls.reverse.dropWhile (fun l => (trimChars l.data).isEmpty) with
  | [] => [""]
  | x :: rest => (rstripLine x :: rest).reverse

/-- The result record of `addEntries`. -/
structure AddResult where
  added : List String
  skipped : List String
deriving DecidableEq

/-- `EtcHostsProvider.addEntries(hosts, ip)`: empty input short-circuits;
invalid hostnames or an invalid IP throw; each hostname already present with
the same IP anywhere in the file is skipped; if nothing is added the file is
left untouched; otherwise the managed section is rewritten (or created) with
the union of its previous hostnames and the added ones, all mapped to the
target IP. Returns the `{added, skipped}` report and the resulting lines. -/
def addEntries (lines : List String) (hostnames : List String) (targetIP : String) :
    Except String (AddResult × List String) :=
  if hostnames.isEmpty then .ok (⟨[], []⟩, lines)
  else
    match hostnames.find? (fun h => !(isValidHostname h)) with
    | some h => .error ("Invalid hostname: " ++ h)
    | none =>
      if !(isValidIP targetIP) then .error ("Invalid IP address: " ++ targetIP)
      else
        let existingEntries := parseHostsFile lines
        let added := hostnames.filter (fun h =>
          !(existingEntries.any (fun e => e.hostname == h && e.ip == targetIP)))
        let skipped := hostnames.filter (fun h =>
          existingEntries.any (fun e => e.hostname == h && e.ip == targetIP))
        if added.isEmpty then .ok (⟨added, skipped⟩, lines)
        else
          match getManagedSection lines with
          | some (before, managed, after) =>
            let existingManaged := managed.filterMap (fun l =>
              let t := trimChars l.data
              if t.isEmpty || t.head? == some '#' then none
              else ((splitWs t).get? 1).map String.mk)
            .ok (⟨added, skipped⟩,
              before ++ buildManagedSection (dedupList (existingManaged ++ added)) targetIP
                ++ after)
          | none =>
            .ok (⟨added, skipped⟩,
              trimEndLines lines ++ [""] ++ buildManagedSection added targetIP ++ [""])

/-- The result record of `removeEntries`. -/
structure RemoveResult where
  removed : List String
  notFound : List String
deriving DecidableEq

/-- The loop of `removeEntries` over the managed block's lines: comment
lines are kept, a line whose second field is a requested hostname is removed
(its hostname recorded), other two-field lines are kept, and lines with
fewer than two fields are silently dropped. -/
def removeLoop (hosts : List String) : List String → List String × List String
  | [] => ([], [])
  | line :: rest =>
    let t := trimChars line.data
    if t.head? == some '#' then
      let r := removeLoop hosts rest
      (r.1, line :: r.2)
    else
      match splitWs t with
      | _ :: h :: _ =>
        if hosts.contains (String.mk h) then
          let r := removeLoop hosts rest
          (String.mk h :: r.1, r.2)
        else
          let r := removeLoop hosts rest
          (r.1, line :: r.2)
      | _ => removeLoop hosts rest

/-- `EtcHostsProvider.removeEntries(hosts)`: empty input or a missing
managed section report every hostname as not found without touching the
file; otherwise the managed block is filtered by `removeLoop`, hostnames not
removed are reported as not found, and the section is dropped entirely when
only markers remain. -/
def removeEntries (lines : List String) (hosts : List String) :
    RemoveResult × List String :=
  if hosts.isEmpty then (⟨[], []⟩, lines)
  else
    match getManagedSection lines with
    | none => (⟨[], hosts⟩, lines)
    | some (before, managed, after) =>
      let r := removeLoop hosts managed
      let notFound := hosts.filter (fun h => !(r.1.contains h))
      let hasEntries := r.2.any (fun l =>
        let t := trimChars l.data
        !(t.head? == some '#') && !t.isEmpty)
      if hasEntries then (⟨r.1, notFound⟩, before ++ r.2 ++ after)
      else (⟨r.1, notFound⟩, trimEndLines before ++ after)

/-- The entry one managed-block line contributes in `listEntries`: markers,
blank lines and short lines are skipped, otherwise the first two
whitespace-separated fields form the `{ip, hostname}` pair. -/
def managedLineEntry (l : String) : Option HostEntry :=
  let t := trimChars l.data
  if t.isEmpty then none
  else if t.head? == some '#' then none
  else
    match splitWs t with
    | ip :: h :: _ => some ⟨String.mk ip, String.mk h⟩
    | _ => none

/-- `EtcHostsProvider.listEntries`: the `{ip, hostname}` pairs of the
managed block, skipping markers, blank lines and short lines. -/
def listEntries (lines : List String) : List HostEntry :=
  match getManagedSection lines with
  | none => []
  | some (_, managed, _) => managed.filterMap managedLineEntry

end EtcHostsProvider

/-! ## Plugin manager hooks (src/core/plugin-manager.js) and the
action wrapper (src/core/command-loader.js) -/

/-- The behavior of one hook function when invoked. -/
inductive HookOutcome where
  | ok
  | throws (msg : String)
deriving DecidableEq

/-- A loaded plugin's hook table, as `runHook` consults it. -/
structure Plugin where
  name : String
  beforeCommand : Option HookOutcome
  afterCommand : Option HookOutcome
deriving DecidableEq

namespace PluginManager

/-- `plugin.hooks[hookName]` for the two lifecycle hooks. -/
def getHook (p : Plugin) (hookName : String) : Option HookOutcome :=
  if hookName = "beforeCommand" then p.beforeCommand
  else if hookName = "afterCommand" then p.afterCommand
  else none

/-- `PluginManager.runHook(hookName, context, ...args)`: iterates every
loaded plugin, invokes the named hook when present, and wraps each
invocation in try/catch — a throwing hook contributes a logged warning and
iteration continues. Returns (names of plugins whose hook was invoked,
warnings logged). -/
def runHook (plugins : List Plugin) (hookName : String) : List String × List String :=
  match plugins with
  | [] => ([], [])
  | p :: ps =>
    let rest := runHook ps hookName
    match getHook p hookName with
    | none => rest
    | some .ok => (p.name :: rest.1, rest.2)
    | some (.throws m) =>
      (p.name :: rest.1,
       ("Warning: Hook \"" ++ hookName ++ "\" in plugin \"" ++ p.name ++ "\" failed: " ++ m)
         :: rest.2)

end PluginManager

/-- The behavior of a command definition's action when called. -/
inductive ActionOutcome where
  | ok (value : Nat)
  | throws (msg : String)
deriving DecidableEq

/-- What the action wrapper installed by `registerSingleCommand` produces:
the command completed with the action's result (plus the hook warnings
logged along the way), or the process exited non-zero because the action
threw. -/
inductive WrapperOutcome where
  | completed (value : Nat) (warnings : List String)
  | exited (code : Nat)
deriving DecidableEq

/-- The action wrapper of `registerSingleCommand`: run all `beforeCommand`
hooks via `runHook`, call the action, run all `afterCommand` hooks, and on a
thrown action error report it and exit 1 (hook failures were already caught
inside `runHook` and cannot reach this catch). -/
def runWrappedAction (plugins : List Plugin) (act : ActionOutcome) : WrapperOutcome :=
  let before := PluginManager.runHook plugins "beforeCommand"
  match act with
  | .throws _ => .exited 1
  | .ok v =>
    let after := PluginManager.runHook plugins "afterCommand"
    .completed v (before.2 ++ after.2)


/-! ## Supporting lemmas: registry resolution -/

theorem resolve_null_of_falsy_driver (ty : String) (cfg : Config) (ex : Option Nat)
    (r : ProviderRegistry) (tc : TypeConfig)
    (hc : getAssoc ty cfg = some tc)
    (hd : tc.driver = none ∨ tc.driver = some "" ∨ tc.driver = some "none") :
    ProviderRegistry.resolve ty cfg ex r = (.ok none, r) := by
  rcases hd with h | h | h <;> simp [ProviderRegistry.resolve, hc, h]

theorem resolve_ok_some_cache (ty d : String) (cfg : Config) (ex : Option Nat)
    (r r2 : ProviderRegistry) (inst : PInstance) (tc : TypeConfig)
    (hc : getAssoc ty cfg = some tc) (hd : tc.driver = some d)
    (h : ProviderRegistry.resolve ty cfg ex r = (.ok (some inst), r2)) :
    ¬(d = "" ∨ d = "none") ∧ getAssoc (ty ++ ":" ++ d) r2.instances = some inst := by
  simp only [ProviderRegistry.resolve, hc, hd] at h
  by_cases hfalsy : d = "" ∨ d = "none"
  · rw [if_pos hfalsy] at h
    simp at h
  · rw [if_neg hfalsy] at h
    refine ⟨hfalsy, ?_⟩
    cases hi : getAssoc (ty ++ ":" ++ d) r.instances with
    | some inst0 =>
      rw [hi] at h
      obtain ⟨h1, h2⟩ := Prod.mk.injEq _ _ _ _ ▸ h
      obtain rfl : inst0 = inst := by
        simpa using h1
      rw [← h2]
      exact hi
    | none =>
      rw [hi] at h
      cases hp : getAssoc (ty ++ ":" ++ d) r.providers with
      | none =>
        rw [hp] at h
        simp at h
      | some cls =>
        rw [hp] at h
        obtain ⟨h1, h2⟩ := Prod.mk.injEq _ _ _ _ ▸ h
        obtain rfl : (⟨r.nextId, cls, tc, ex⟩ : PInstance) = inst := by
          simpa using h1
        rw [← h2]
        exact getAssoc_setAssoc _ _ _

theorem resolve_cache_hit (ty d : String) (cfg : Config) (ex : Option Nat)
    (r : ProviderRegistry) (inst : PInstance) (tc : TypeConfig)
    (hc : getAssoc ty cfg = some tc) (hd : tc.driver = some d)
    (hnf : ¬(d = "" ∨ d = "none"))
    (hi : getAssoc (ty ++ ":" ++ d) r.instances = some inst) :
    ProviderRegistry.resolve ty cfg ex r = (.ok (some inst), r) := by
  simp only [ProviderRegistry.resolve, hc, hd, if_neg hnf, hi]

theorem resolve_some_driver_shape (ty : String) (cfg : Config) (ex : Option Nat)
    (r r2 : ProviderRegistry) (inst : PInstance)
    (h : ProviderRegistry.resolve ty cfg ex r = (.ok (some inst), r2)) :
    ∃ tc d, getAssoc ty cfg = some tc ∧ tc.driver = some d := by
  cases hc : getAssoc ty cfg with
  | none =>
    simp [ProviderRegistry.resolve, hc] at h
  | some tc =>
    cases hd : tc.driver with
    | none => simp [ProviderRegistry.resolve, hc, hd] at h
    | some d => exact ⟨tc, d, rfl, hd⟩

/-! ## Claims C2, C8, C10: provider registry resolution -/

/-- Claim C2: for every provider type and driver name, calling
`ProviderRegistry.resolve` twice within one process with a configuration
selecting that same `(type, driverName)` pair returns the same object
identity — the first successful resolve caches the instance and the second
resolve returns the cached instance (and leaves the registry unchanged). -/
theorem C2_resolve_singleton (ty : String) (cfg : Config) (ex : Option Nat)
    (r r2 : ProviderRegistry) (inst : PInstance)
    (h : ProviderRegistry.resolve ty cfg ex r = (.ok (some inst), r2)) :
    ProviderRegistry.resolve ty cfg ex r2 = (.ok (some inst), r2) := by
  obtain ⟨tc, d, hc, hd⟩ := resolve_some_driver_shape ty cfg ex r r2 inst h
  obtain ⟨hnf, hi⟩ := resolve_ok_some_cache ty d cfg ex r r2 inst tc hc hd h
  exact resolve_cache_hit ty d cfg ex r2 inst tc hc hd hnf hi

/-- Claim C2 witness: a concrete registry with a registered `database:mysql`
class; the first resolve constructs and caches instance id 0, the second
returns it unchanged. -/
theorem C2_resolve_singleton_witness :
    ProviderRegistry.resolve "database" [("database", ⟨some "mysql", 0⟩)] (some 10)
        (ProviderRegistry.register "database" "mysql" .mysqlP ProviderRegistry.empty)
      = (.ok (some ⟨0, .mysqlP, ⟨some "mysql", 0⟩, some 10⟩),
         ⟨[("database:mysql", .mysqlP)],
          [("database:mysql", ⟨0, .mysqlP, ⟨some "mysql", 0⟩, some 10⟩)], 1⟩)
    ∧ ProviderRegistry.resolve "database" [("database", ⟨some "mysql", 0⟩)] (some 10)
        ⟨[("database:mysql", .mysqlP)],
         [("database:mysql", ⟨0, .mysqlP, ⟨some "mysql", 0⟩, some 10⟩)], 1⟩
      = (.ok (some ⟨0, .mysqlP, ⟨some "mysql", 0⟩, some 10⟩),
         ⟨[("database:mysql", .mysqlP)],
          [("database:mysql", ⟨0, .mysqlP, ⟨some "mysql", 0⟩, some 10⟩)], 1⟩) :=
  ⟨by decide,
   C2_resolve_singleton "database" [("database", ⟨some "mysql", 0⟩)] (some 10)
     (ProviderRegistry.register "database" "mysql" .mysqlP ProviderRegistry.empty)
     ⟨[("database:mysql", .mysqlP)],
      [("database:mysql", ⟨0, .mysqlP, ⟨some "mysql", 0⟩, some 10⟩)], 1⟩
     ⟨0, .mysqlP, ⟨some "mysql", 0⟩, some 10⟩ (by decide)⟩

/-- Claim C8: for every provider type and driver name that is neither unset
nor `'none'`, if no class is registered under `(type, driverName)` (and no
instance is cached), `resolve` raises an error whose message lists the
currently registered driver names for that type, as computed by
`listProviders`. -/
theorem C8_resolve_unregistered_raises (ty d : String) (cfg : Config) (ex : Option Nat)
    (r : ProviderRegistry) (tc : TypeConfig)
    (hc : getAssoc ty cfg = some tc) (hd : tc.driver = some d)
    (hnf : ¬(d = "" ∨ d = "none"))
    (hi : getAssoc (ty ++ ":" ++ d) r.instances = none)
    (hp : getAssoc (ty ++ ":" ++ d) r.providers = none) :
    ProviderRegistry.resolve ty cfg ex r
      = (.error (ProviderRegistry.notFoundMessage ty d r), r) := by
  simp only [ProviderRegistry.resolve, hc, hd, if_neg hnf, hi, hp]

/-- Claim C8 witness: with `mysql` and `postgres` registered for `database`,
resolving the unregistered driver `oracle` raises, and the raised message
spells out the registered driver list. -/
theorem C8_resolve_unregistered_raises_witness :
    ProviderRegistry.resolve "database" [("database", ⟨some "oracle", 0⟩)] none
        (ProviderRegistry.register "database" "postgres" .postgresP
          (ProviderRegistry.register "database" "mysql" .mysqlP ProviderRegistry.empty))
      = (.error (ProviderRegistry.notFoundMessage "database" "oracle"
          (ProviderRegistry.register "database" "postgres" .postgresP
            (ProviderRegistry.register "database" "mysql" .mysqlP ProviderRegistry.empty))),
         ProviderRegistry.register "database" "postgres" .postgresP
           (ProviderRegistry.register "database" "mysql" .mysqlP ProviderRegistry.empty))
    ∧ ProviderRegistry.notFoundMessage "database" "oracle"
        (ProviderRegistry.register "database" "postgres" .postgresP
          (ProviderRegistry.register "database" "mysql" .mysqlP ProviderRegistry.empty))
      = "Provider \"oracle\" not found for type \"database\". Available providers: mysql, postgres" :=
  ⟨C8_resolve_unregistered_raises "database" "oracle"
     [("database", ⟨some "oracle", 0⟩)] none
     (ProviderRegistry.register "database" "postgres" .postgresP
       (ProviderRegistry.register "database" "mysql" .mysqlP ProviderRegistry.empty))
     ⟨some "oracle", 0⟩ (by decide) (by decide) (by decide) (by decide) (by decide),
   by decide⟩

/-- Claim C10 (implicit): the instance cache is keyed only by
`(type, driverName)`. After a first successful resolve has cached an
instance, every later resolve whose configuration selects the same driver
returns that original instance with the registry unchanged — even when the
configuration contents and the executor argument differ — until
`clearInstances` empties the cache, after which a resolve constructs a fresh
instance from the newly supplied section config and executor. -/
theorem C10_cache_ignores_config_and_executor (ty d : String) (cfg1 cfg2 : Config)
    (ex1 ex2 : Option Nat) (r r2 : ProviderRegistry) (inst : PInstance)
    (tc1 tc2 : TypeConfig)
    (hc1 : getAssoc ty cfg1 = some tc1) (hd1 : tc1.driver = some d)
    (hc2 : getAssoc ty cfg2 = some tc2) (hd2 : tc2.driver = some d)
    (h1 : ProviderRegistry.resolve ty cfg1 ex1 r = (.ok (some inst), r2)) :
    ProviderRegistry.resolve ty cfg2 ex2 r2 = (.ok (some inst), r2)
    ∧ (ProviderRegistry.clearInstances r2).instances = []
    ∧ (∀ inst2 r3,
        ProviderRegistry.resolve ty cfg2 ex2 (ProviderRegistry.clearInstances r2)
          = (.ok (some inst2), r3) → inst2.cfg = tc2 ∧ inst2.exec = ex2) := by
  obtain ⟨hnf, hi⟩ := resolve_ok_some_cache ty d cfg1 ex1 r r2 inst tc1 hc1 hd1 h1
  refine ⟨resolve_cache_hit ty d cfg2 ex2 r2 inst tc2 hc2 hd2 hnf hi, rfl, ?_⟩
  intro inst2 r3 h3
  have hi0 : getAssoc (ty ++ ":" ++ d) (ProviderRegistry.clearInstances r2).instances
      = none := rfl
  simp only [ProviderRegistry.resolve, hc2, hd2, if_neg hnf, hi0] at h3
  cases hp : getAssoc (ty ++ ":" ++ d) (ProviderRegistry.clearInstances r2).providers with
  | none =>
    rw [hp] at h3
    simp at h3
  | some cls =>
    rw [hp] at h3
    obtain ⟨ha, hb⟩ := Prod.mk.injEq _ _ _ _ ▸ h3
    obtain rfl : (⟨(ProviderRegistry.clearInstances r2).nextId, cls, tc2, ex2⟩ : PInstance)
        = inst2 := by simpa using ha
    exact ⟨rfl, rfl⟩

/-- Claim C10 witness: after resolving `database:mysql` once with one config
and executor, resolving again with a different section payload and executor
returns the original cached instance (still recording the first call's
arguments), and after `clearInstances` the next resolve records the new
arguments. -/
theorem C10_cache_ignores_config_and_executor_witness :
    ProviderRegistry.resolve "database" [("database", ⟨some "mysql", 7⟩)] (some 20)
        ⟨[("database:mysql", .mysqlP)],
         [("database:mysql", ⟨0, .mysqlP, ⟨some "mysql", 0⟩, some 10⟩)], 1⟩
      = (.ok (some ⟨0, .mysqlP, ⟨some "mysql", 0⟩, some 10⟩),
         ⟨[("database:mysql", .mysqlP)],
          [("database:mysql", ⟨0, .mysqlP, ⟨some "mysql", 0⟩, some 10⟩)], 1⟩)
    ∧ (ProviderRegistry.clearInstances
        ⟨[("database:mysql", .mysqlP)],
         [("database:mysql", ⟨0, .mysqlP, ⟨some "mysql", 0⟩, some 10⟩)], 1⟩).instances = []
    ∧ (∀ inst2 r3,
        ProviderRegistry.resolve "database" [("database", ⟨some "mysql", 7⟩)] (some 20)
            (ProviderRegistry.clearInstances
              ⟨[("database:mysql", .mysqlP)],
               [("database:mysql", ⟨0, .mysqlP, ⟨some "mysql", 0⟩, some 10⟩)], 1⟩)
          = (.ok (some inst2), r3)
        → inst2.cfg = ⟨some "mysql", 7⟩ ∧ inst2.exec = some 20) :=
  C10_cache_ignores_config_and_executor "database" "mysql"
    [("database", ⟨some "mysql", 0⟩)] [("database", ⟨some "mysql", 7⟩)]
    (some 10) (some 20)
    (ProviderRegistry.register "database" "mysql" .mysqlP ProviderRegistry.empty)
    ⟨[("database:mysql", .mysqlP)],
     [("database:mysql", ⟨0, .mysqlP, ⟨some "mysql", 0⟩, some 10⟩)], 1⟩
    ⟨0, .mysqlP, ⟨some "mysql", 0⟩, some 10⟩
    ⟨some "mysql", 0⟩ ⟨some "mysql", 7⟩
    (by decide) (by decide) (by decide) (by decide) (by decide)

/-! ## Supporting lemmas: Context memoization -/

theorem initializeProviders_flag (c : Ctx) :
    (Ctx.initializeProviders c).providersInitialized = true := by
  unfold Ctx.initializeProviders
  split
  · assumption
  · rfl

theorem initializeProviders_idem (c : Ctx) (h : c.providersInitialized = true) :
    Ctx.initializeProviders c = c := by
  unfold Ctx.initializeProviders
  rw [if_pos h]

theorem initializeProviders_preserves (c : Ctx) :
    (Ctx.initializeProviders c).config = c.config
    ∧ (Ctx.initializeProviders c).executor = c.executor
    ∧ (Ctx.initializeProviders c).providers = c.providers
    ∧ (Ctx.initializeProviders c).nextId = c.nextId := by
  unfold Ctx.initializeProviders
  split
  · exact ⟨rfl, rfl, rfl, rfl⟩
  · exact ⟨rfl, rfl, rfl, rfl⟩

theorem getExecutor_state (c c2 : Ctx) (e : ExecInst)
    (h : Ctx.getExecutor c = .ok (e, c2)) :
    c2.executor = some e
    ∧ c2.config = c.config
    ∧ c2.providers = c.providers
    ∧ c2.providersInitialized = c.providersInitialized := by
  unfold Ctx.getExecutor at h
  cases he : c.executor with
  | some e0 =>
    rw [he] at h
    obtain ⟨h1, h2⟩ : e0 = e ∧ c = c2 := by simpa using h
    subst h1
    subst h2
    exact ⟨he, rfl, rfl, rfl⟩
  | none =>
    rw [he] at h
    cases hce : createExecutor c.config c.nextId with
    | error m =>
      rw [hce] at h
      simp at h
    | ok e0 =>
      rw [hce] at h
      obtain ⟨h1, h2⟩ : e0 = e ∧ { c with executor := some e0, nextId := c.nextId + 1 } = c2 := by
        simpa using h
      subst h1
      rw [← h2]
      exact ⟨rfl, rfl, rfl, rfl⟩

theorem getExecutor_memoized (c : Ctx) (e : ExecInst) (h : c.executor = some e) :
    Ctx.getExecutor c = .ok (e, c) := by
  unfold Ctx.getExecutor
  rw [h]

theorem getProvider_state (ty : String) (c c2 : Ctx) (v : Option CtxInst)
    (h : Ctx.getProvider ty c = .ok (v, c2)) :
    c2.providersInitialized = true ∧ getAssoc ty c2.providers = some v := by
  simp only [Ctx.getProvider] at h
  cases hl : getAssoc ty (Ctx.initializeProviders c).providers with
  | some v0 =>
    rw [hl] at h
    obtain ⟨h1, h2⟩ : v0 = v ∧ Ctx.initializeProviders c = c2 := by simpa using h
    subst h1
    rw [← h2]
    exact ⟨initializeProviders_flag c, hl⟩
  | none =>
    simp only [hl] at h
    cases hge : Ctx.getExecutor (Ctx.initializeProviders c) with
    | error m =>
      simp only [hge] at h
      simp at h
    | ok p =>
      obtain ⟨e0, c3⟩ := p
      simp only [hge] at h
      obtain ⟨hflag3⟩ : c3.providersInitialized = (Ctx.initializeProviders c).providersInitialized ∧ True := by
        have hs := getExecutor_state (Ctx.initializeProviders c) c3 e0 hge
        exact ⟨hs.2.2.2, trivial⟩
      cases hcr : (if ty = "database" then createDatabaseProvider c3.config.database c3.nextId
             else if ty = "storage" then createStorageProvider c3.config.storage c3.nextId
             else if ty = "hosts" then createHostsProvider c3.config.hosts c3.nextId
             else .error ("Unknown provider type: \"" ++ ty ++ "\"")) with
      | error m =>
        simp only [hcr] at h
        simp at h
      | ok v0 =>
        simp only [hcr] at h
        obtain ⟨h1, h2⟩ : v0 = v
            ∧ { c3 with providers := setAssoc ty v0 c3.providers,
                        nextId := if v0.isSome then c3.nextId + 1 else c3.nextId } = c2 := by
          simpa using h
        subst h1
        rw [← h2]
        constructor
        · show c3.providersInitialized = true
          rw [hflag3]
          exact initializeProviders_flag c
        · exact getAssoc_setAssoc ty v0 c3.providers

/-! ## Claim C3: Context memoization -/

/-- Claim C3: for every sequence of calls to a single Context's accessors,
at most one Executor instance and at most one Provider instance per type are
ever constructed: once `getExecutor` has returned `(e, c2)`, calling it again
on `c2` returns the same instance with the state unchanged (so nothing is
ever constructed again), and likewise once `getProvider ty` has returned
`(v, d2)`, calling it again on `d2` returns the memoized `v` with the state
unchanged; the typed accessors are the `getProvider` instances at
`"database"`, `"storage"` and `"hosts"`. -/
theorem C3_context_memoizes (c c2 d d2 : Ctx) (e : ExecInst) (ty : String)
    (v : Option CtxInst)
    (hx : Ctx.getExecutor c = .ok (e, c2))
    (hp : Ctx.getProvider ty d = .ok (v, d2)) :
    Ctx.getExecutor c2 = .ok (e, c2)
    ∧ Ctx.getProvider ty d2 = .ok (v, d2)
    ∧ (∀ x : Ctx, Ctx.getDatabaseProvider x = Ctx.getProvider "database" x
        ∧ Ctx.getStorageProvider x = Ctx.getProvider "storage" x
        ∧ Ctx.getHostsProvider x = Ctx.getProvider "hosts" x) := by
  refine ⟨?_, ?_, fun x => ⟨rfl, rfl, rfl⟩⟩
  · exact getExecutor_memoized c2 e (getExecutor_state c c2 e hx).1
  · obtain ⟨hflag, hcache⟩ := getProvider_state ty d d2 v hp
    simp only [Ctx.getProvider, initializeProviders_idem d2 hflag, hcache]

/-- Claim C3 witness: a fresh Context whose configuration selects the default
docker mode and a mysql database; the executor and the database provider are
constructed once (ids 0 and 1) and the repeated calls return them unchanged. -/
theorem C3_context_memoizes_witness :
    Ctx.getExecutor
        ⟨⟨none, some ⟨some "mysql", 0⟩, none, none⟩, some ⟨0, "docker"⟩, [], false,
          ProviderRegistry.empty, 1⟩
      = .ok (⟨0, "docker"⟩,
          ⟨⟨none, some ⟨some "mysql", 0⟩, none, none⟩, some ⟨0, "docker"⟩, [], false,
            ProviderRegistry.empty, 1⟩)
    ∧ Ctx.getProvider "database"
        ⟨⟨none, some ⟨some "mysql", 0⟩, none, none⟩, some ⟨0, "docker"⟩,
          [("database", some ⟨1, .mysqlP⟩)], true,
          registerHostsProviders (registerStorageProviders
            (registerDatabaseProviders ProviderRegistry.empty)), 2⟩
      = .ok (some ⟨1, .mysqlP⟩,
          ⟨⟨none, some ⟨some "mysql", 0⟩, none, none⟩, some ⟨0, "docker"⟩,
            [("database", some ⟨1, .mysqlP⟩)], true,
            registerHostsProviders (registerStorageProviders
              (registerDatabaseProviders ProviderRegistry.empty)), 2⟩)
    ∧ (∀ x : Ctx, Ctx.getDatabaseProvider x = Ctx.getProvider "database" x
        ∧ Ctx.getStorageProvider x = Ctx.getProvider "storage" x
        ∧ Ctx.getHostsProvider x = Ctx.getProvider "hosts" x) :=
  C3_context_memoizes
    (Ctx.create ⟨none, some ⟨some "mysql", 0⟩, none, none⟩)
    ⟨⟨none, some ⟨some "mysql", 0⟩, none, none⟩, some ⟨0, "docker"⟩, [], false,
      ProviderRegistry.empty, 1⟩
    (Ctx.create ⟨none, some ⟨some "mysql", 0⟩, none, none⟩)
    ⟨⟨none, some ⟨some "mysql", 0⟩, none, none⟩, some ⟨0, "docker"⟩,
      [("database", some ⟨1, .mysqlP⟩)], true,
      registerHostsProviders (registerStorageProviders
        (registerDatabaseProviders ProviderRegistry.empty)), 2⟩
    ⟨0, "docker"⟩ "database" (some ⟨1, .mysqlP⟩)
    (by decide) (by decide)

/-! ## Claim C9: driver "none" / absent section resolves to null -/

/-- Claim C9: when a resource type's configuration section is absent, or its
driver is unset, empty, or `'none'`, resolution returns null rather than
raising — both at the registry (`resolve`) and at the factory
(`createDatabaseProvider`); and a Context whose configuration declares
`database.driver = 'none'` (with the default execution mode and no cached
`database` entry) answers `getDatabaseProvider` with null. -/
theorem C9_none_driver_resolves_null (ty : String) (cfg cfg2 : Config) (ex : Option Nat)
    (r : ProviderRegistry) (tc tcdb : TypeConfig) (c : Ctx) (id : Nat)
    (h1 : getAssoc ty cfg = none)
    (h2 : getAssoc ty cfg2 = some tc)
    (hd : tc.driver = none ∨ tc.driver = some "" ∨ tc.driver = some "none")
    (hcdb : c.config.database = some tcdb) (hdb : tcdb.driver = some "none")
    (hmode : c.config.executionMode = none)
    (hfresh : getAssoc "database" c.providers = none) :
    ProviderRegistry.resolve ty cfg ex r = (.ok none, r)
    ∧ ProviderRegistry.resolve ty cfg2 ex r = (.ok none, r)
    ∧ createDatabaseProvider (some tcdb) id = .ok none
    ∧ ∃ c2, Ctx.getDatabaseProvider c = .ok (none, c2) := by
  refine ⟨by simp [ProviderRegistry.resolve, h1],
          resolve_null_of_falsy_driver ty cfg2 ex r tc h2 hd,
          by simp [createDatabaseProvider, hdb], ?_⟩
  have hpre := initializeProviders_preserves c
  have hfresh1 : getAssoc "database" (Ctx.initializeProviders c).providers = none := by
    rw [hpre.2.2.1]
    exact hfresh
  have hexec : ∃ e c3, Ctx.getExecutor (Ctx.initializeProviders c) = .ok (e, c3) := by
    unfold Ctx.getExecutor
    cases he : (Ctx.initializeProviders c).executor with
    | some e0 => exact ⟨e0, _, rfl⟩
    | none =>
      have hce : createExecutor (Ctx.initializeProviders c).config
          (Ctx.initializeProviders c).nextId
          = .ok ⟨(Ctx.initializeProviders c).nextId, "docker"⟩ := by
        unfold createExecutor
        rw [hpre.1, hmode]
        simp [jsOrStr]
      rw [hce]
      exact ⟨_, _, rfl⟩
  obtain ⟨e, c3, hge⟩ := hexec
  have hc3 := getExecutor_state (Ctx.initializeProviders c) c3 e hge
  have hcreate : createDatabaseProvider c3.config.database c3.nextId = .ok none := by
    rw [hc3.2.1, hpre.1, hcdb]
    simp [createDatabaseProvider, hdb]
  simp only [Ctx.getDatabaseProvider, Ctx.getProvider, hfresh1, hge, hcreate]
  exact ⟨_, rfl⟩

/-- Claim C9 witness: a registry resolve with no `storage` section, a resolve
with `storage.driver = 'none'`, the database factory at a `'none'` section,
and a fresh Context with `database.driver = 'none'` — all answer null. -/
theorem C9_none_driver_resolves_null_witness :
    ProviderRegistry.resolve "storage" [] none ProviderRegistry.empty
      = (.ok none, ProviderRegistry.empty)
    ∧ ProviderRegistry.resolve "storage" [("storage", ⟨some "none", 0⟩)] none
        ProviderRegistry.empty = (.ok none, ProviderRegistry.empty)
    ∧ createDatabaseProvider (some ⟨some "none", 3⟩) 0 = .ok none
    ∧ ∃ c2, Ctx.getDatabaseProvider
        (Ctx.create ⟨none, some ⟨some "none", 3⟩, none, none⟩) = .ok (none, c2) :=
  C9_none_driver_resolves_null "storage" [] [("storage", ⟨some "none", 0⟩)] none
    ProviderRegistry.empty ⟨some "none", 0⟩ ⟨some "none", 3⟩
    (Ctx.create ⟨none, some ⟨some "none", 3⟩, none, none⟩) 0
    (by decide) (by decide) (by decide) (by decide) (by decide) (by decide) (by decide)

/-! ## Claim C1: executor error policy -/

/-- The error policy the three executors actually implement, for a
subprocess outcome `o`, an `execa` rejection `e`, a configured SSH host, and
an arbitrary service list: Native answers every capability without raising;
SSH (host configured) captures every outcome in the `{stdout, stderr,
exitCode}` record, and even with no host its `status` catches the raised
configuration error; Docker's `run`/`runInService` capture outcomes, but its
compose-backed `start`/`stop`/`restart`/`logs` propagate a subprocess
rejection as a raised error, while `status` swallows it into `[]`. -/
def executorErrorPolicy (o : ExecOutcome) (e : ExecaError) (host : String)
    (services : List String) : Prop :=
  NativeExecutor.run o = .ok (captureOutcome o)
  ∧ NativeExecutor.runInService "app" o = .ok (captureOutcome o)
  ∧ NativeExecutor.start services = .ok ()
  ∧ NativeExecutor.stop services = .ok ()
  ∧ NativeExecutor.restart services = .ok ()
  ∧ NativeExecutor.status services = .ok [("native", "running")]
  ∧ NativeExecutor.logs services = .ok ()
  ∧ SSHExecutor.run (some host) o = .ok (captureOutcome o)
  ∧ SSHExecutor.runInService (some host) "app" o = .ok (captureOutcome o)
  ∧ SSHExecutor.start (some host) services o = .ok (captureOutcome o)
  ∧ SSHExecutor.stop (some host) services o = .ok (captureOutcome o)
  ∧ SSHExecutor.restart (some host) services o = .ok (captureOutcome o)
  ∧ SSHExecutor.logs (some host) services o = .ok (captureOutcome o)
  ∧ SSHExecutor.status none services o = []
  ∧ DockerExecutor.run o = .ok (captureOutcome o)
  ∧ DockerExecutor.runInService [("app", "proj_app")] "app" true DockerExecutor.noOptions o
      = .ok (captureOutcome o)
  ∧ DockerExecutor.start true (some "docker-compose.yml") "/proj" services false
      (.rejected e) = .error (.execaRejection e)
  ∧ DockerExecutor.stop true (some "docker-compose.yml") "/proj" [] (.rejected e)
      = .error (.execaRejection e)
  ∧ DockerExecutor.stop true (some "docker-compose.yml") "/proj" ["db"] (.rejected e)
      = .error (.execaRejection e)
  ∧ DockerExecutor.restart true (some "docker-compose.yml") "/proj" services
      (.rejected e) = .error (.execaRejection e)
  ∧ DockerExecutor.logs true (some "docker-compose.yml") "/proj" services false none
      (.rejected e) = .error (.execaRejection e)
  ∧ DockerExecutor.status true (some "docker-compose.yml") "/proj" services
      (.rejected e) = []

/-- Claim C1 (counterexample): with Docker running, a compose file present,
and the `docker compose up -d` subprocess failing with exit code 1,
`DockerExecutor.start` raises the `execa` rejection instead of returning a
`{stdout, stderr, exitCode}` record — so a subprocess failure on a
structurally valid `start` call is not captured. -/
theorem C1_counterexample :
    DockerExecutor.start true (some "docker-compose.yml") "/proj" [] false
        (.rejected ⟨some "", some "service failed", some 1, "Command failed with exit code 1"⟩)
      = .error (.execaRejection
          ⟨some "", some "service failed", some 1, "Command failed with exit code 1"⟩) := by
  rfl

/-- Claim C1 (amended): for a structurally valid call, the Native variant's
capabilities and the SSH variant's capabilities (host configured) never
raise and capture subprocess failure as `exitCode !== 0` in the result
record, as do Docker's `run` and `runInService` (service mapped, Docker
running); configuration and connectivity problems are still raised; but
Docker's compose-backed `start`/`stop`/`restart`/`logs` propagate a
subprocess failure as a raised error rather than capturing it (`status`
catches it and reports `[]`). -/
theorem C1_executor_error_policy (o : ExecOutcome) (e : ExecaError) (host : String)
    (services : List String) (hhost : host ≠ "") :
    executorErrorPolicy o e host services := by
  have hs : SSHExecutor.run (some host) o = .ok (captureOutcome o) := by
    simp [SSHExecutor.run, strTruthy, hhost]
  refine ⟨rfl, rfl, rfl, rfl, rfl, rfl, rfl, hs, hs, hs, hs, hs, hs, rfl, rfl, ?_,
    rfl, rfl, rfl, rfl, rfl, rfl⟩
  cases o with
  | resolved r => rfl
  | rejected e2 => rfl

/-- Claim C1 witness: the amended policy instantiated at a successful
outcome, a failing rejection, host `example.com`, and one service. -/
theorem C1_executor_error_policy_witness :
    ("example.com" : String) ≠ ""
    ∧ executorErrorPolicy (.resolved ⟨some "out", none, some 0⟩)
        ⟨none, some "boom", some 1, "failed"⟩ "example.com" ["app"] :=
  ⟨by decide,
   C1_executor_error_policy (.resolved ⟨some "out", none, some 0⟩)
     ⟨none, some "boom", some 1, "failed"⟩ "example.com" ["app"] (by decide)⟩

/-! ## Supporting lemmas: snapshot sorting -/

namespace BaseDatabaseProvider

theorem mem_insertByCreatedDesc (x a : SnapshotInfo) (l : List SnapshotInfo) :
    a ∈ insertByCreatedDesc x l ↔ a = x ∨ a ∈ l := by
  induction l with
  | nil => simp [insertByCreatedDesc]
  | cons y ys ih =>
    by_cases hy : y.created ≤ x.created
    · simp [insertByCreatedDesc, hy]
    · simp only [insertByCreatedDesc, if_neg hy, List.mem_cons, ih]
      tauto

theorem insertByCreatedDesc_length (x : SnapshotInfo) (l : List SnapshotInfo) :
    (insertByCreatedDesc x l).length = l.length + 1 := by
  induction l with
  | nil => rfl
  | cons y ys ih =>
    by_cases hy : y.created ≤ x.created
    · simp [insertByCreatedDesc, hy]
    · simp [insertByCreatedDesc, hy, ih]

theorem sortByCreatedDesc_length (l : List SnapshotInfo) :
    (sortByCreatedDesc l).length = l.length := by
  induction l with
  | nil => rfl
  | cons x xs ih =>
    simp [sortByCreatedDesc, insertByCreatedDesc_length, ih]

theorem insertByCreatedDesc_pairwise (x : SnapshotInfo) (l : List SnapshotInfo)
    (h : l.Pairwise (fun a b => b.created ≤ a.created)) :
    (insertByCreatedDesc x l).Pairwise (fun a b => b.created ≤ a.created) := by
  induction l with
  | nil => simp [insertByCreatedDesc]
  | cons y ys ih =>
    rw [List.pairwise_cons] at h
    by_cases hy : y.created ≤ x.created
    · rw [insertByCreatedDesc, if_pos hy, List.pairwise_cons]
      refine ⟨?_, List.pairwise_cons.mpr h⟩
      intro z hz
      rcases List.mem_cons.mp hz with rfl | hz2
      · exact hy
      · exact le_trans (h.1 z hz2) hy
    · rw [insertByCreatedDesc, if_neg hy, List.pairwise_cons]
      refine ⟨?_, ih h.2⟩
      intro z hz
      rcases (mem_insertByCreatedDesc x z ys).mp hz with rfl | hz2
      · exact le_of_lt (lt_of_not_le hy)
      · exact h.1 z hz2

theorem sortByCreatedDesc_pairwise (l : List SnapshotInfo) :
    (sortByCreatedDesc l).Pairwise (fun a b => b.created ≤ a.created) := by
  induction l with
  | nil => simp [sortByCreatedDesc]
  | cons x xs ih => exact insertByCreatedDesc_pairwise x (sortByCreatedDesc xs) ih

end BaseDatabaseProvider

theorem snapshotFilterMap_length (dir : String) (files : List DirEnt) :
    (files.filterMap (fun f =>
      if f.isFile then
        some (⟨f.name, dir ++ "/" ++ f.name, f.size, f.mtime⟩ : SnapshotInfo)
      else none)).length
    = (files.filter (fun f => f.isFile)).length := by
  induction files with
  | nil => rfl
  | cons f fs ih =>
    by_cases hf : f.isFile
    · simp [List.filterMap_cons, List.filter_cons, hf, ih]
    · simp [List.filterMap_cons, List.filter_cons, hf, ih]

/-! ## Claim C4: rollback restores the newest snapshot -/

/-- Claim C4: `rollback()` raises a `'No snapshots available'` error when the
snapshot directory contains zero snapshot files, and when two or more
snapshot files exist it restores from the one with the latest modification
time, regardless of filename — because `listSnapshots` sorts by
last-modified time descending and `rollback` restores the first entry. -/
theorem C4_rollback_latest_snapshot (dir : String) (files0 files2 : List DirEnt)
    (h0 : files0.filter (fun f => f.isFile) = [])
    (h2 : 2 ≤ (files2.filter (fun f => f.isFile)).length) :
    MySQLProvider.rollback dir true files0 = .error "No snapshots available"
    ∧ ∃ s, s ∈ BaseDatabaseProvider.listSnapshots dir true files2
        ∧ MySQLProvider.rollback dir true files2 = .ok s.path
        ∧ ∀ t ∈ BaseDatabaseProvider.listSnapshots dir true files2,
            t.created ≤ s.created := by
  constructor
  · have hmap : files0.filterMap (fun f =>
        if f.isFile then
          some (⟨f.name, dir ++ "/" ++ f.name, f.size, f.mtime⟩ : SnapshotInfo)
        else none) = [] := by
      rw [← List.length_eq_zero]
      rw [snapshotFilterMap_length, h0]
      rfl
    unfold MySQLProvider.rollback BaseDatabaseProvider.listSnapshots
    rw [hmap]
    rfl
  · have hlen : 2 ≤ (BaseDatabaseProvider.listSnapshots dir true files2).length := by
      unfold BaseDatabaseProvider.listSnapshots
      simp only [Bool.not_true, Bool.false_eq_true, if_false]
      rw [BaseDatabaseProvider.sortByCreatedDesc_length, snapshotFilterMap_length]
      exact h2
    cases hsnap : BaseDatabaseProvider.listSnapshots dir true files2 with
    | nil =>
      rw [hsnap] at hlen
      simp at hlen
    | cons s rest =>
      refine ⟨s, List.mem_cons_self s rest, ?_, ?_⟩
      · unfold MySQLProvider.rollback
        rw [hsnap]
      · intro t ht
        have hpw : (s :: rest).Pairwise (fun a b => b.created ≤ a.created) := by
          rw [← hsnap]
          unfold BaseDatabaseProvider.listSnapshots
          simp only [Bool.not_true, Bool.false_eq_true, if_false]
          exact BaseDatabaseProvider.sortByCreatedDesc_pairwise _
        rcases List.mem_cons.mp ht with rfl | ht2
        · exact le_refl _
        · exact (List.pairwise_cons.mp hpw).1 t ht2

/-- Claim C4 witness: an empty directory raises; with two snapshot files of
modification times 5 and 9 the one with mtime 9 is restored even though its
name sorts after the other. -/
theorem C4_rollback_latest_snapshot_witness :
    (([] : List DirEnt).filter (fun f => f.isFile) = [])
    ∧ 2 ≤ (([⟨"a.sql", true, 10, 5⟩, ⟨"b.sql", true, 20, 9⟩] : List DirEnt).filter
        (fun f => f.isFile)).length
    ∧ (MySQLProvider.rollback "snaps" true [] = .error "No snapshots available"
       ∧ ∃ s, s ∈ BaseDatabaseProvider.listSnapshots "snaps" true
            [⟨"a.sql", true, 10, 5⟩, ⟨"b.sql", true, 20, 9⟩]
          ∧ MySQLProvider.rollback "snaps" true
              [⟨"a.sql", true, 10, 5⟩, ⟨"b.sql", true, 20, 9⟩] = .ok s.path
          ∧ ∀ t ∈ BaseDatabaseProvider.listSnapshots "snaps" true
              [⟨"a.sql", true, 10, 5⟩, ⟨"b.sql", true, 20, 9⟩],
              t.created ≤ s.created) :=
  ⟨by decide, by decide,
   C4_rollback_latest_snapshot "snaps" []
     [⟨"a.sql", true, 10, 5⟩, ⟨"b.sql", true, 20, 9⟩] (by decide) (by decide)⟩

/-! ## Claim C5: command-definition validation -/

/-- Claim C5 (counterexample): a definition with a name, no action, and an
*empty* `subcommands` array is kept by the loader's `isValidCommand` (a JS
empty array is truthy and passes `Array.isArray`), although the spec's rule
— name AND (action OR non-empty subcommand list) — classifies it invalid; so
"kept if and only if ... a non-empty subcommand list" fails. -/
theorem C5_counterexample :
    isValidCommand (.mk (some "broken") false (some [])) = true
    ∧ specValidCommand (.mk (some "broken") false (some [])) = false := by
  exact ⟨by decide, by decide⟩

/-- Claim C5 (amended): a definition from a core-directory or custom-path
module is kept iff it has a name and either an action or a `subcommands`
array (of any length, including empty); a definition from a plugin command
list is kept iff it has a name and an action (subcommands do not exempt
it); in both stages filtering is per definition, so the valid definitions
of a source always survive regardless of invalid neighbours. -/
theorem C5_validation_rule (cmds : List CommandDef) (c : CommandDef) :
    (c ∈ loadArrayCommands cmds ↔ c ∈ cmds ∧ isValidCommand c = true)
    ∧ (c ∈ pluginValidCommands cmds ↔ c ∈ cmds ∧ pluginCommandValid c = true)
    ∧ isValidCommand c = (strTruthy c.name && (c.subcommands.isSome || c.action))
    ∧ pluginCommandValid c = (strTruthy c.name && c.action) := by
  refine ⟨List.mem_filter, List.mem_filter, ?_, rfl⟩
  cases hs : c.subcommands with
  | some l => cases hn : strTruthy c.name <;> simp [isValidCommand, hs, hn]
  | none => cases hn : strTruthy c.name <;> simp [isValidCommand, hs, hn]

/-! ## Claim C7: hook isolation -/

/-- Claim C7: `runHook` visits every loaded plugin that defines the named
hook — a throwing hook is caught inside `runHook`, contributes a warning,
and does not stop the iteration — and therefore a command's wrapped action
still runs to completion whatever the plugins' hooks do: for every plugin
list (including ones whose `beforeCommand` throws) the wrapper completes
with the action's value, and prepending a plugin whose `beforeCommand`
throws merely prepends a warning. -/
theorem C7_hook_isolation (plugins : List Plugin) (hookName : String) (v : Nat)
    (nm m : String) :
    (PluginManager.runHook plugins hookName).1
      = (plugins.filter (fun p => (PluginManager.getHook p hookName).isSome)).map Plugin.name
    ∧ runWrappedAction plugins (.ok v)
        = .completed v ((PluginManager.runHook plugins "beforeCommand").2
            ++ (PluginManager.runHook plugins "afterCommand").2)
    ∧ runWrappedAction (⟨nm, some (.throws m), none⟩ :: plugins) (.ok v)
        = .completed v
            ((("Warning: Hook \"beforeCommand\" in plugin \"" ++ nm ++ "\" failed: " ++ m)
                :: (PluginManager.runHook plugins "beforeCommand").2)
              ++ (PluginManager.runHook plugins "afterCommand").2) := by
  refine ⟨?_, rfl, ?_⟩
  · induction plugins with
    | nil => rfl
    | cons p ps ih =>
      rw [PluginManager.runHook, List.filter_cons]
      cases hg : PluginManager.getHook p hookName with
      | none => simp [hg, ih]
      | some res => cases res <;> simp [hg, ih]
  · rfl

/-! ## Supporting lemmas: hosts provider -/

namespace EtcHostsProvider

theorem removeLoop_removed_nil (g : String) (m : List String)
    (h : ∀ l ∈ m, ∀ e, managedLineEntry l = some e → e.hostname ≠ g) :
    (removeLoop [g] m).1 = [] := by
  induction m with
  | nil => rfl
  | cons line rest ih =>
    have hrest : (removeLoop [g] rest).1 = [] :=
      ih (fun l hl => h l (List.mem_cons_of_mem line hl))
    rw [removeLoop]
    by_cases hcomment : (trimChars line.data).head? == some '#'
    · simp only [hcomment, if_pos]
      exact hrest
    · simp only [hcomment]
      cases hsp : splitWs (trimChars line.data) with
      | nil => simp only [Bool.false_eq_true, if_false]; exact hrest
      | cons ip tl =>
        cases tl with
        | nil => simp only [Bool.false_eq_true, if_false]; exact hrest
        | cons hn tl2 =>
          have htne : ¬(trimChars line.data).isEmpty := by
            intro habs
            rw [List.isEmpty_iff.mp habs] at hsp
            simp [splitWs, splitWsAux] at hsp
          have hentry : managedLineEntry line = some ⟨String.mk ip, String.mk hn⟩ := by
            unfold managedLineEntry
            simp only [htne, if_false, hcomment, hsp]
            rfl
          have hne : String.mk hn ≠ g :=
            h line (List.mem_cons_self line rest) ⟨String.mk ip, String.mk hn⟩ hentry
          have hcont : List.contains [g] (String.mk hn) = false := by
            simp [List.contains, hne]
          simp only [Bool.false_eq_true, if_false, hcont]
          exact hrest

end EtcHostsProvider

/-! ## Claim C6: hosts provider idempotency -/

/-- Claim C6: the hosts provider's additive operations are idempotent at the
reported-result level — `addEntries` for a hostname+IP pair that the hosts
file already contains (same hostname *and* same IP) reports the hostname as
skipped, adds nothing, and leaves the file content unchanged (so the managed
entry set does not grow); and `removeEntries` for a hostname that is not
among the managed entries reports it as not found with nothing removed,
rather than raising an error. -/
theorem C6_hosts_idempotency (lines lines2 : List String) (h ip g : String)
    (hvh : EtcHostsProvider.isValidHostname h = true)
    (hvip : EtcHostsProvider.isValidIP ip = true)
    (hmem : (⟨ip, h⟩ : EtcHostsProvider.HostEntry) ∈ EtcHostsProvider.parseHostsFile lines)
    (hg : g ∉ (EtcHostsProvider.listEntries lines2).map EtcHostsProvider.HostEntry.hostname) :
    EtcHostsProvider.addEntries lines [h] ip = .ok (⟨[], [h]⟩, lines)
    ∧ (EtcHostsProvider.removeEntries lines2 [g]).1 = ⟨[], [g]⟩ := by
  constructor
  · have hany : (EtcHostsProvider.parseHostsFile lines).any
        (fun e => e.hostname == h && e.ip == ip) = true :=
      List.any_eq_true.mpr ⟨⟨ip, h⟩, hmem, by simp⟩
    unfold EtcHostsProvider.addEntries
    simp [List.find?, hvh, hvip, hany, List.filter]
  · cases hms : EtcHostsProvider.getManagedSection lines2 with
    | none =>
      simp only [EtcHostsProvider.removeEntries, hms]
      rfl
    | some sec =>
      obtain ⟨bfr, m, aft⟩ := sec
      have hnot : ∀ l ∈ m, ∀ e, EtcHostsProvider.managedLineEntry l = some e
          → e.hostname ≠ g := by
        intro l hl e he heq
        apply hg
        have hmem2 : e ∈ EtcHostsProvider.listEntries lines2 := by
          unfold EtcHostsProvider.listEntries
          rw [hms]
          exact List.mem_filterMap.mpr ⟨l, hl, he⟩
        exact heq ▸ List.mem_map_of_mem EtcHostsProvider.HostEntry.hostname hmem2
      have hrm := EtcHostsProvider.removeLoop_removed_nil g m hnot
      simp only [EtcHostsProvider.removeEntries, hms, hrm]
      split
      · simp_all
      · split <;> rfl

/-- Claim C6 witness: a hosts file that already maps `foo.test` to
`127.0.0.1` reports a repeated add of that exact pair as skipped with the
content unchanged, and removing `bar.test` — absent from the managed block —
reports it as not found. -/
theorem C6_hosts_idempotency_witness :
    EtcHostsProvider.isValidHostname "foo.test" = true
    ∧ EtcHostsProvider.isValidIP "127.0.0.1" = true
    ∧ ((⟨"127.0.0.1", "foo.test"⟩ : EtcHostsProvider.HostEntry)
        ∈ EtcHostsProvider.parseHostsFile ["127.0.0.1 foo.test"])
    ∧ ("bar.test" ∉ (EtcHostsProvider.listEntries
        ["# >>> dev-cli managed hosts", "127.0.0.1\tother.test",
         "# <<< dev-cli managed hosts"]).map EtcHostsProvider.HostEntry.hostname)
    ∧ (EtcHostsProvider.addEntries ["127.0.0.1 foo.test"] ["foo.test"] "127.0.0.1"
        = .ok (⟨[], ["foo.test"]⟩, ["127.0.0.1 foo.test"])
       ∧ (EtcHostsProvider.removeEntries
            ["# >>> dev-cli managed hosts", "127.0.0.1\tother.test",
             "# <<< dev-cli managed hosts"] ["bar.test"]).1 = ⟨[], ["bar.test"]⟩) :=
  ⟨by decide, by decide, by decide, by decide,
   C6_hosts_idempotency ["127.0.0.1 foo.test"]
     ["# >>> dev-cli managed hosts", "127.0.0.1\tother.test",
      "# <<< dev-cli managed hosts"]
     "foo.test" "127.0.0.1" "bar.test" (by decide) (by decide) (by decide) (by decide)⟩
